import Mathlib

/-!
Shallow embedding of the dynamic DNS resolver in `src/dns.py`
(class `DynamicResolver` and its collaborators).

The resolver receives a DNS query, checks that the query type is one of
A / AAAA / A6 and that the query name's suffix (all labels but the first,
joined by ".") is in the configured domain allow-list, looks the name up
in a relational store, and then either builds a resource record from a
stored IP literal, delegates to an upstream resolver when the stored value
is a domain name, or fails.

External collaborators (the database connection and the upstream resolver)
are modelled as an explicit environment of functions; every invocation of a
collaborator and every logger call is recorded in an event trace, so that
theorems can speak about which collaborators were invoked and which log
branch fired.  Python exceptions flowing through Twisted deferreds are
modelled with `Except`/`ROut`; `error.DomainError()` is the constructor
`PyError.DomainError`, while arbitrary store/upstream failures are
`PyError.External` codes propagated unchanged.
-/

namespace PyDNS

/-- DNS record-type code for A, as in `twisted.names.dns.A`. -/
def dnsA : Nat := 1

/-- DNS record-type code for AAAA, as in `twisted.names.dns.AAAA`. -/
def dnsAAAA : Nat := 28

/-- DNS record-type code for A6, as in `twisted.names.dns.A6`. -/
def dnsA6 : Nat := 38

/-- Split a character list at every occurrence of `sep`, keeping empty
pieces, exactly like Python `str.split(sep)` for a one-character
separator: `splitOnChar '.' "".data = [[]]`. -/
def splitOnChar (sep : Char) : List Char → List (List Char)
  | [] => [[]]
  | c :: rest =>
    let r := splitOnChar sep rest
    if c = sep then [] :: r
    else
      match r with
      | [] => [[c]]
      | g :: gs => (c :: g) :: gs

/-- Python `s.split(sep)` for a one-character separator, on `String`. -/
def pySplit (s : String) (sep : Char) : List String :=
  (splitOnChar sep s.data).map (fun g => String.mk g)

/-! ### Model of the Python `ipaddress` module

`DynamicResolver._doCreateRecord` calls `ipaddress.ip_address` on the raw
stored value and branches on the parsed address's `version`; the record
payload stores `str(address)`.  We model the stdlib collaborator: a
dotted-quad IPv4 parser (four decimal octets, no leading zeros, each at
most 255) and an RFC-4291 IPv6 parser (eight 1-4 hex-digit groups
separated by ":", with at most one "::" compression), together with the
canonical string form Python's `str()` produces (for IPv6, lowercase hex
with the leftmost longest run of two or more zero groups compressed). -/

/-- Numeric value of one hexadecimal digit, or `none`. -/
def hexVal (c : Char) : Option Nat :=
  if '0' ≤ c ∧ c ≤ '9' then some (c.toNat - 48)
  else if 'a' ≤ c ∧ c ≤ 'f' then some (c.toNat - 87)
  else if 'A' ≤ c ∧ c ≤ 'F' then some (c.toNat - 55)
  else none

/-- Parse one decimal IPv4 octet: 1–3 digits, no leading zero, ≤ 255. -/
def parseOctet (cs : List Char) : Option Nat :=
  if cs.length = 0 ∨ 3 < cs.length then none
  else if ¬ cs.all Char.isDigit then none
  else if 1 < cs.length ∧ cs.headD ' ' = '0' then none
  else
    let n := cs.foldl (fun a c => a * 10 + (c.toNat - 48)) 0
    if n ≤ 255 then some n else none

/-- Parse one IPv6 group: 1–4 hexadecimal digits. -/
def parseHextet (cs : List Char) : Option Nat :=
  if cs.length = 0 ∨ 4 < cs.length then none
  else
    cs.foldl
      (fun acc c =>
        match acc, hexVal c with
        | some a, some v => some (a * 16 + v)
        | _, _ => none)
      (some 0)

/-- Parse a dotted-quad IPv4 literal into its four octets. -/
def parseIPv4 (s : String) : Option (List Nat) :=
  let parts := splitOnChar '.' s.data
  if parts.length = 4 then parts.mapM parseOctet else none

/-- Split a character list at the first occurrence of `"::"`. -/
def findDoubleColon : List Char → Option (List Char × List Char)
  | [] => none
  | ':' :: ':' :: rest => some ([], rest)
  | c :: rest => (findDoubleColon rest).map (fun p => (c :: p.1, p.2))

/-- Parse an IPv6 literal into its eight 16-bit groups. -/
def parseIPv6 (s : String) : Option (List Nat) :=
  match findDoubleColon s.data with
  | none =>
    match (splitOnChar ':' s.data).mapM parseHextet with
    | some hs => if hs.length = 8 then some hs else none
    | none => none
  | some (l, r) =>
    if (findDoubleColon r).isSome then none
    else
      let lps := if l = [] then some [] else (splitOnChar ':' l).mapM parseHextet
      let rps := if r = [] then some [] else (splitOnChar ':' r).mapM parseHextet
      match lps, rps with
      | some a, some b =>
        if a.length + b.length ≤ 7 then
          some (a ++ List.replicate (8 - a.length - b.length) 0 ++ b)
        else none
      | _, _ => none

/-- A parsed IP address: four octets (v4) or eight 16-bit groups (v6). -/
inductive IPAddress
  | v4 (octets : List Nat)
  | v6 (hextets : List Nat)
deriving DecidableEq

/-- `address.version` of the Python `ipaddress` object. -/
def IPAddress.version : IPAddress → Nat
  | .v4 _ => 4
  | .v6 _ => 6

/-- `ipaddress.ip_address`: try IPv4, then IPv6; `none` models the
`ValueError` raised when the string is not an IP literal. -/
def ip_address (s : String) : Option IPAddress :=
  match parseIPv4 s with
  | some o => some (.v4 o)
  | none =>
    match parseIPv6 s with
    | some h => some (.v6 h)
    | none => none

/-- Leftmost longest run of zero groups: `(start, length)`. -/
def bestZeroRunGo : List Nat → Nat → Nat → Nat → Nat → Nat → Nat × Nat
  | [], _, curS, curL, bestS, bestL =>
    if bestL < curL then (curS, curL) else (bestS, bestL)
  | x :: rest, i, curS, curL, bestS, bestL =>
    if x = 0 then
      bestZeroRunGo rest (i + 1) (if curL = 0 then i else curS) (curL + 1) bestS bestL
    else if bestL < curL then
      bestZeroRunGo rest (i + 1) 0 0 curS curL
    else
      bestZeroRunGo rest (i + 1) 0 0 bestS bestL

/-- Leftmost longest run of zero groups in a hextet list. -/
def bestZeroRun (h : List Nat) : Nat × Nat := bestZeroRunGo h 0 0 0 0 0

/-- Lowercase hexadecimal digits of `n`, no leading zeros. -/
def hexChars (n : Nat) : String := String.mk (Nat.toDigits 16 n)

/-- Python `str()` of an IPv6 address: lowercase hex groups joined with
":", the leftmost longest run of two or more zero groups compressed to
"::" (mirrors `ipaddress._compress_hextets`). -/
def ipv6Str (h : List Nat) : String :=
  let p := bestZeroRun h
  let hexs := h.map hexChars
  if 1 < p.2 then
    let parts := hexs.take p.1 ++ [""] ++ hexs.drop (p.1 + p.2)
    let parts := if parts.getLast? = some "" then parts ++ [""] else parts
    let parts := if parts.head? = some "" then "" :: parts else parts
    String.intercalate ":" parts
  else String.intercalate ":" hexs

/-- Python `str(address)`. -/
def IPAddress.str : IPAddress → String
  | .v4 o => String.intercalate "." (o.map (fun n => Nat.repr n))
  | .v6 h => ipv6Str h

/-! ### Data model of the resolver -/

/-- The slice of `Config` the resolver reads: `dns_ttl`, the
`dns_domains` allow-list and the parameterized `db_query` template. -/
structure Config where
  dns_ttl : Nat
  dns_domains : List String
  db_query : String
deriving DecidableEq

/-- A DNS query: name, wire type code, wire class code
(`twisted.names.dns.Query`). -/
structure Query where
  name : String
  qtype : Nat
  qclass : Nat
deriving DecidableEq

/-- The record classes `dns.Record_A` / `dns.Record_AAAA` / `dns.Record_A6`
selected by `_doCreateRecord`. -/
inductive RecordType
  | A
  | AAAA
  | A6
deriving DecidableEq

/-- A record payload `record_type(address=str(address))`. -/
structure Payload where
  rtype : RecordType
  address : String
deriving DecidableEq

/-- `dns.RRHeader(name=..., payload=..., ttl=...)`. -/
structure RRHeader where
  name : String
  payload : Payload
  ttl : Nat
deriving DecidableEq

/-- The tri-list `(answers, authority, additional)` fired on success. -/
structure Outcome where
  answers : List RRHeader
  authority : List RRHeader
  additional : List RRHeader
deriving DecidableEq

/-- A Python exception value flowing through a deferred:
`error.DomainError()` or an arbitrary external failure (store driver or
upstream resolver), identified by a code and propagated unchanged. -/
inductive PyError
  | DomainError
  | External (code : Nat)
deriving DecidableEq

/-- How one resolution ends: the promise fires with a result, fires with
an error, or never fires (`stuck` models the `IndexError` a zero-column
first row would raise inside the `onResult` callback, leaving the promise
unresolved). -/
inductive ROut
  | ok (o : Outcome)
  | err (e : PyError)
  | stuck
deriving DecidableEq

/-- One observable event of a resolution: an invocation of a collaborator
or a logger call, in program order. -/
inductive Event
  | storeQuery (sql : String) (params : List String)
  | upstreamQuery (q : Query) (timeout : Nat × Nat × Nat)
  | logNoSuchDomain (name : String)
  | logSqlResult (data : String)
  | logRecursive (data : String)
  | logMismatch
  | logUnsupported (q : Query)
  | logStoreFailed
deriving DecidableEq

/-- `true` exactly on store-gateway invocation events. -/
def Event.isStore : Event → Bool
  | .storeQuery _ _ => true
  | _ => false

/-- `true` exactly on upstream-resolver invocation events. -/
def Event.isUpstream : Event → Bool
  | .upstreamQuery _ _ => true
  | _ => false

/-- The resolver's collaborators: `connection.runQuery` (rows of strings,
or a raised failure) and the global resolver's `query` (an outcome, or a
raised failure). -/
structure Env where
  store : String → List String → Except PyError (List (List String))
  upstream : Query → Nat × Nat × Nat → Except PyError Outcome

/-- The two exceptions `_doCreateRecord` can raise. -/
inductive CreateErr
  | valueError
  | typeError
deriving DecidableEq

/-- `DynamicResolver._doCreateRecord`: parse the stored string as an IP
address (`ValueError` if it is not one), match the address family against
the query type (`TypeError` on mismatch), and build the `RRHeader`. -/
def doCreateRecord (cfg : Config) (q : Query) (name : String)
    (representation : String) : Except CreateErr RRHeader :=
  match ip_address representation with
  | none => .error .valueError
  | some address =>
    let record_type : Option RecordType :=
      if address.version = 4 then
        if q.qtype = dnsA then some .A else none
      else
        if q.qtype = dnsAAAA then some .AAAA
        else if q.qtype = dnsA6 then some .A6
        else none
    match record_type with
    | none => .error .typeError
    | some rt => .ok ⟨name, ⟨rt, address.str⟩, cfg.dns_ttl⟩

/-- The `onResult` callback of `_doDynamicResponse`, with its two
default-argument lists `answers=[]` and `additional=[]` made explicit
parameters: empty rows errback `DomainError`; a stored IP literal fires
`(answers, [record], additional)`; a non-literal rewrites the query name
and chains the upstream resolver (timeout `(3,3,3)`); a family/type
mismatch errbacks `DomainError`. -/
def onResult (cfg : Config) (env : Env) (q : Query) (name : String)
    (answers additional : List RRHeader) (result : List (List String)) :
    ROut × List Event :=
  match result with
  | [] => (.err .DomainError, [.logNoSuchDomain name])
  | row :: _ =>
    match row with
    | [] => (.stuck, [])
    | representation :: _ =>
      match doCreateRecord cfg q name representation with
      | .ok record =>
        (.ok ⟨answers, [record], additional⟩, [.logSqlResult representation])
      | .error .valueError =>
        let q2 : Query := { q with name := representation }
        match env.upstream q2 (3, 3, 3) with
        | .ok o =>
          (.ok o,
            [.logSqlResult representation, .logRecursive representation,
              .upstreamQuery q2 (3, 3, 3)])
        | .error e =>
          (.err e,
            [.logSqlResult representation, .logRecursive representation,
              .upstreamQuery q2 (3, 3, 3)])
      | .error .typeError =>
        (.err .DomainError, [.logSqlResult representation, .logMismatch])

/-- `DynamicResolver._doDynamicResponse`: run the configured store query
with the query name as sole parameter and feed the callback pair
(`onResult` with fresh empty default lists, `onError` which propagates the
store failure unchanged). -/
def doDynamicResponse (cfg : Config) (env : Env) (q : Query) :
    ROut × List Event :=
  let name := q.name
  let ev0 := Event.storeQuery cfg.db_query [name]
  match env.store cfg.db_query [name] with
  | .error e => (.err e, [ev0, .logStoreFailed])
  | .ok result =>
    let r := onResult cfg env q name [] [] result
    (r.1, ev0 :: r.2)

/-- `".".join(labels[1:])` for `labels = name.split('.')`: the suffix of
the query name with exactly the first label stripped. -/
def domainSuffix (name : String) : String :=
  String.intercalate "." ((pySplit name '.').drop 1)

/-- `DynamicResolver.query`: answer dynamically when the query type is
A/AAAA/A6 and the name's suffix is in the allow-list; otherwise log
"Unsupported query" and fail with `error.DomainError()`. -/
def DynamicResolver.query (cfg : Config) (env : Env) (q : Query) :
    ROut × List Event :=
  if (q.qtype = dnsA ∨ q.qtype = dnsAAAA ∨ q.qtype = dnsA6) ∧
      cfg.dns_domains.contains (domainSuffix q.name) = true then
    doDynamicResponse cfg env q
  else
    (.err .DomainError, [.logUnsupported q])

/-! ### Claim theorems -/

/-- C1: for every in-scope query of type A whose store lookup returns a
value that parses as an IPv4 literal, resolution succeeds with empty
answers, exactly one authority record carrying the original query name,
record type A, the address as payload, and `Config.dns_ttl` as ttl, and
empty additional. -/
theorem c1_ipv4_literal_authority_record (cfg : Config) (env : Env)
    (q : Query) (v : String) (row : List String) (rows : List (List String))
    (a : IPAddress)
    (hA : q.qtype = dnsA)
    (hscope : cfg.dns_domains.contains (domainSuffix q.name) = true)
    (hstore : env.store cfg.db_query [q.name] = .ok ((v :: row) :: rows))
    (hip : ip_address v = some a)
    (hv4 : a.version = 4) :
    (DynamicResolver.query cfg env q).1 =
      .ok ⟨[], [⟨q.name, ⟨.A, a.str⟩, cfg.dns_ttl⟩], []⟩ := by
  have hmem : domainSuffix q.name ∈ cfg.dns_domains := by simpa using hscope
  simp [DynamicResolver.query, doDynamicResponse, onResult, doCreateRecord,
    hA, hmem, hstore, hip, hv4]

/-- Witness for C1: the spec's concrete scenario (ttl 300, allow-list
{"example.org"}, query `host1.example.org` of type A, stored value
`203.0.113.5`). -/
theorem c1_ipv4_literal_authority_record_witness :
    (DynamicResolver.query
      ⟨300, ["example.org"], "SELECT address FROM dns WHERE domain = %s"⟩
      ⟨fun _ _ => .ok [["203.0.113.5"]], fun _ _ => .error (.External 0)⟩
      ⟨"host1.example.org", 1, 1⟩).1 =
      .ok ⟨[], [⟨"host1.example.org", ⟨.A, "203.0.113.5"⟩, 300⟩], []⟩ := by
  exact c1_ipv4_literal_authority_record
    ⟨300, ["example.org"], "SELECT address FROM dns WHERE domain = %s"⟩
    ⟨fun _ _ => .ok [["203.0.113.5"]], fun _ _ => .error (.External 0)⟩
    ⟨"host1.example.org", 1, 1⟩ "203.0.113.5" [] [] (.v4 [203, 0, 113, 5])
    rfl (by decide) rfl (by decide) rfl

/-- C2: for every in-scope query whose stored value parses as no IP
literal, the upstream resolver is invoked with a query whose name is that
value and whose type and class are preserved, with timeout `(3, 3, 3)`; a
successful upstream outcome is returned unchanged and an upstream failure
is propagated unchanged. -/
theorem c2_alias_delegates_upstream (cfg : Config) (env : Env) (q : Query)
    (v : String) (row : List String) (rows : List (List String))
    (htype : q.qtype = dnsA ∨ q.qtype = dnsAAAA ∨ q.qtype = dnsA6)
    (hscope : cfg.dns_domains.contains (domainSuffix q.name) = true)
    (hstore : env.store cfg.db_query [q.name] = .ok ((v :: row) :: rows))
    (hip : ip_address v = none) :
    Event.upstreamQuery ⟨v, q.qtype, q.qclass⟩ (3, 3, 3) ∈
        (DynamicResolver.query cfg env q).2 ∧
      (∀ o, env.upstream ⟨v, q.qtype, q.qclass⟩ (3, 3, 3) = .ok o →
        (DynamicResolver.query cfg env q).1 = .ok o) ∧
      (∀ e, env.upstream ⟨v, q.qtype, q.qclass⟩ (3, 3, 3) = .error e →
        (DynamicResolver.query cfg env q).1 = .err e) := by
  have hmem : domainSuffix q.name ∈ cfg.dns_domains := by simpa using hscope
  have hq2 : ({ q with name := v } : Query) = ⟨v, q.qtype, q.qclass⟩ := rfl
  refine ⟨?_, ?_, ?_⟩
  · cases hu : env.upstream ⟨v, q.qtype, q.qclass⟩ (3, 3, 3) with
    | ok o =>
      simp [DynamicResolver.query, doDynamicResponse, onResult, doCreateRecord,
        htype, hmem, hstore, hip, hq2, hu]
    | error e =>
      simp [DynamicResolver.query, doDynamicResponse, onResult, doCreateRecord,
        htype, hmem, hstore, hip, hq2, hu]
  · intro o hu
    simp [DynamicResolver.query, doDynamicResponse, onResult, doCreateRecord,
      htype, hmem, hstore, hip, hq2, hu]
  · intro e hu
    simp [DynamicResolver.query, doDynamicResponse, onResult, doCreateRecord,
      htype, hmem, hstore, hip, hq2, hu]

/-- Witness for C2: the spec's alias scenario — `host2.example.org` stores
`host3.example.org`, which is delegated upstream with type and class
preserved and timeout `(3, 3, 3)`, and the upstream outcome is returned
unchanged. -/
theorem c2_alias_delegates_upstream_witness :
    Event.upstreamQuery ⟨"host3.example.org", 1, 1⟩ (3, 3, 3) ∈
        (DynamicResolver.query
          ⟨300, ["example.org"], "SELECT address FROM dns WHERE domain = %s"⟩
          ⟨fun _ _ => .ok [["host3.example.org"]],
            fun q2 _ => .ok ⟨[⟨q2.name, ⟨.A, "198.51.100.9"⟩, 60⟩], [], []⟩⟩
          ⟨"host2.example.org", 1, 1⟩).2 ∧
      (DynamicResolver.query
          ⟨300, ["example.org"], "SELECT address FROM dns WHERE domain = %s"⟩
          ⟨fun _ _ => .ok [["host3.example.org"]],
            fun q2 _ => .ok ⟨[⟨q2.name, ⟨.A, "198.51.100.9"⟩, 60⟩], [], []⟩⟩
          ⟨"host2.example.org", 1, 1⟩).1 =
        .ok ⟨[⟨"host3.example.org", ⟨.A, "198.51.100.9"⟩, 60⟩], [], []⟩ := by
  have h := c2_alias_delegates_upstream
    ⟨300, ["example.org"], "SELECT address FROM dns WHERE domain = %s"⟩
    ⟨fun _ _ => .ok [["host3.example.org"]],
      fun q2 _ => .ok ⟨[⟨q2.name, ⟨.A, "198.51.100.9"⟩, 60⟩], [], []⟩⟩
    ⟨"host2.example.org", 1, 1⟩ "host3.example.org" [] []
    (Or.inl rfl) (by decide) rfl (by decide)
  exact ⟨h.1, h.2.1 ⟨[⟨"host3.example.org", ⟨.A, "198.51.100.9"⟩, 60⟩], [], []⟩ rfl⟩

/-- C3: for every in-scope query whose stored value parses as an IP
literal whose family disagrees with the requested type (IPv4 with AAAA or
A6, IPv6 with A), resolution fails via the mismatch branch (the
`TypeError` handler errbacks `error.DomainError()` after logging the
mismatch), and the upstream resolver is never invoked. -/
theorem c3_family_mismatch_fails (cfg : Config) (env : Env) (q : Query)
    (v : String) (row : List String) (rows : List (List String))
    (a : IPAddress)
    (hscope : cfg.dns_domains.contains (domainSuffix q.name) = true)
    (hstore : env.store cfg.db_query [q.name] = .ok ((v :: row) :: rows))
    (hip : ip_address v = some a)
    (hmis : (a.version = 4 ∧ (q.qtype = dnsAAAA ∨ q.qtype = dnsA6)) ∨
      (a.version = 6 ∧ q.qtype = dnsA)) :
    (DynamicResolver.query cfg env q).1 = .err .DomainError ∧
      Event.logMismatch ∈ (DynamicResolver.query cfg env q).2 ∧
      ∀ q2 t, Event.upstreamQuery q2 t ∉ (DynamicResolver.query cfg env q).2 := by
  have hmem : domainSuffix q.name ∈ cfg.dns_domains := by simpa using hscope
  rcases hmis with ⟨hv, hq | hq⟩ | ⟨hv, hq⟩ <;>
    simp [DynamicResolver.query, doDynamicResponse, onResult, doCreateRecord,
      hmem, hstore, hip, hv, hq, dnsA, dnsAAAA, dnsA6]

/-- Witness for C3: the spec's mismatch scenario — stored IPv4 literal
`203.0.113.5` queried with type AAAA fails with the domain error, the
mismatch branch is logged, and no upstream call happens. -/
theorem c3_family_mismatch_fails_witness :
    (DynamicResolver.query
        ⟨300, ["example.org"], "SELECT address FROM dns WHERE domain = %s"⟩
        ⟨fun _ _ => .ok [["203.0.113.5"]], fun _ _ => .error (.External 0)⟩
        ⟨"host1.example.org", 28, 1⟩).1 = .err .DomainError ∧
      Event.logMismatch ∈ (DynamicResolver.query
        ⟨300, ["example.org"], "SELECT address FROM dns WHERE domain = %s"⟩
        ⟨fun _ _ => .ok [["203.0.113.5"]], fun _ _ => .error (.External 0)⟩
        ⟨"host1.example.org", 28, 1⟩).2 ∧
      ∀ q2 t, Event.upstreamQuery q2 t ∉ (DynamicResolver.query
        ⟨300, ["example.org"], "SELECT address FROM dns WHERE domain = %s"⟩
        ⟨fun _ _ => .ok [["203.0.113.5"]], fun _ _ => .error (.External 0)⟩
        ⟨"host1.example.org", 28, 1⟩).2 := by
  exact c3_family_mismatch_fails
    ⟨300, ["example.org"], "SELECT address FROM dns WHERE domain = %s"⟩
    ⟨fun _ _ => .ok [["203.0.113.5"]], fun _ _ => .error (.External 0)⟩
    ⟨"host1.example.org", 28, 1⟩ "203.0.113.5" [] [] (.v4 [203, 0, 113, 5])
    (by decide) rfl (by decide) (Or.inl ⟨rfl, Or.inl rfl⟩)

/-- C4: for every query whose scope suffix — the query name with exactly
its first label stripped, remaining labels joined with "." — is not in the
configured allow-list, resolution fails with the dispatcher's
`error.DomainError()` (the `OutOfScope` failure of the spec) and the store
gateway is never invoked. -/
theorem c4_out_of_scope_rejected (cfg : Config) (env : Env) (q : Query)
    (hsuf : cfg.dns_domains.contains (domainSuffix q.name) = false) :
    (DynamicResolver.query cfg env q).1 = .err .DomainError ∧
      (DynamicResolver.query cfg env q).2.any Event.isStore = false := by
  have hmem : domainSuffix q.name ∉ cfg.dns_domains := by simpa using hsuf
  simp [DynamicResolver.query, Event.isStore, hmem]

/-- Witness for C4: the spec's concrete scenario — `host4.other.org` with
allow-list {"example.org"} (suffix "other.org" not allow-listed) fails and
the store is never queried. -/
theorem c4_out_of_scope_rejected_witness :
    (DynamicResolver.query
        ⟨300, ["example.org"], "SELECT address FROM dns WHERE domain = %s"⟩
        ⟨fun _ _ => .ok [["203.0.113.5"]], fun _ _ => .error (.External 0)⟩
        ⟨"host4.other.org", 1, 1⟩).1 = .err .DomainError ∧
      (DynamicResolver.query
        ⟨300, ["example.org"], "SELECT address FROM dns WHERE domain = %s"⟩
        ⟨fun _ _ => .ok [["203.0.113.5"]], fun _ _ => .error (.External 0)⟩
        ⟨"host4.other.org", 1, 1⟩).2.any Event.isStore = false := by
  exact c4_out_of_scope_rejected
    ⟨300, ["example.org"], "SELECT address FROM dns WHERE domain = %s"⟩
    ⟨fun _ _ => .ok [["203.0.113.5"]], fun _ _ => .error (.External 0)⟩
    ⟨"host4.other.org", 1, 1⟩ (by decide)

/-- C5: for every query whose type is not one of A/AAAA/A6, resolution
fails with the dispatcher's `error.DomainError()` (the spec's
`UnsupportedQuery`) regardless of the name, and neither the store gateway
nor the upstream resolver is invoked. -/
theorem c5_unsupported_type_rejected (cfg : Config) (env : Env) (q : Query)
    (hA : q.qtype ≠ dnsA) (hAAAA : q.qtype ≠ dnsAAAA) (hA6 : q.qtype ≠ dnsA6) :
    (DynamicResolver.query cfg env q).1 = .err .DomainError ∧
      (DynamicResolver.query cfg env q).2.any Event.isStore = false ∧
      (DynamicResolver.query cfg env q).2.any Event.isUpstream = false := by
  simp [DynamicResolver.query, Event.isStore, Event.isUpstream, hA, hAAAA, hA6]

/-- Witness for C5: a TXT query (type 16) for an allow-listed name fails
without touching the store or the upstream resolver. -/
theorem c5_unsupported_type_rejected_witness :
    (DynamicResolver.query
        ⟨300, ["example.org"], "SELECT address FROM dns WHERE domain = %s"⟩
        ⟨fun _ _ => .ok [["203.0.113.5"]], fun _ _ => .error (.External 0)⟩
        ⟨"host1.example.org", 16, 1⟩).1 = .err .DomainError ∧
      (DynamicResolver.query
        ⟨300, ["example.org"], "SELECT address FROM dns WHERE domain = %s"⟩
        ⟨fun _ _ => .ok [["203.0.113.5"]], fun _ _ => .error (.External 0)⟩
        ⟨"host1.example.org", 16, 1⟩).2.any Event.isStore = false ∧
      (DynamicResolver.query
        ⟨300, ["example.org"], "SELECT address FROM dns WHERE domain = %s"⟩
        ⟨fun _ _ => .ok [["203.0.113.5"]], fun _ _ => .error (.External 0)⟩
        ⟨"host1.example.org", 16, 1⟩).2.any Event.isUpstream = false := by
  exact c5_unsupported_type_rejected
    ⟨300, ["example.org"], "SELECT address FROM dns WHERE domain = %s"⟩
    ⟨fun _ _ => .ok [["203.0.113.5"]], fun _ _ => .error (.External 0)⟩
    ⟨"host1.example.org", 16, 1⟩ (by decide) (by decide) (by decide)

/-- C6: for every in-scope query whose store lookup returns zero rows,
resolution fails via the no-such-domain branch: `error.DomainError()` is
errbacked after logging "No such domain" for the query name. -/
theorem c6_empty_store_no_such_domain (cfg : Config) (env : Env) (q : Query)
    (htype : q.qtype = dnsA ∨ q.qtype = dnsAAAA ∨ q.qtype = dnsA6)
    (hscope : cfg.dns_domains.contains (domainSuffix q.name) = true)
    (hstore : env.store cfg.db_query [q.name] = .ok []) :
    (DynamicResolver.query cfg env q).1 = .err .DomainError ∧
      Event.logNoSuchDomain q.name ∈ (DynamicResolver.query cfg env q).2 := by
  have hmem : domainSuffix q.name ∈ cfg.dns_domains := by simpa using hscope
  simp [DynamicResolver.query, doDynamicResponse, onResult, htype, hmem, hstore]

/-- Witness for C6: an allow-listed name absent from the store fails via
the no-such-domain branch. -/
theorem c6_empty_store_no_such_domain_witness :
    (DynamicResolver.query
        ⟨300, ["example.org"], "SELECT address FROM dns WHERE domain = %s"⟩
        ⟨fun _ _ => .ok [], fun _ _ => .error (.External 0)⟩
        ⟨"gone.example.org", 1, 1⟩).1 = .err .DomainError ∧
      Event.logNoSuchDomain "gone.example.org" ∈ (DynamicResolver.query
        ⟨300, ["example.org"], "SELECT address FROM dns WHERE domain = %s"⟩
        ⟨fun _ _ => .ok [], fun _ _ => .error (.External 0)⟩
        ⟨"gone.example.org", 1, 1⟩).2 := by
  exact c6_empty_store_no_such_domain
    ⟨300, ["example.org"], "SELECT address FROM dns WHERE domain = %s"⟩
    ⟨fun _ _ => .ok [], fun _ _ => .error (.External 0)⟩
    ⟨"gone.example.org", 1, 1⟩ (Or.inl rfl) (by decide) rfl

/-- C7: for every in-scope query whose stored value parses as an IPv6
literal, both query types AAAA and A6 are accepted, and the authority
record's type mirrors the requested type: AAAA yields an AAAA record, A6
an A6 record. -/
theorem c7_ipv6_record_mirrors_qtype (cfg : Config) (env : Env) (q : Query)
    (v : String) (row : List String) (rows : List (List String))
    (a : IPAddress)
    (hscope : cfg.dns_domains.contains (domainSuffix q.name) = true)
    (hstore : env.store cfg.db_query [q.name] = .ok ((v :: row) :: rows))
    (hip : ip_address v = some a)
    (hv6 : a.version = 6) :
    (q.qtype = dnsAAAA →
      (DynamicResolver.query cfg env q).1 =
        .ok ⟨[], [⟨q.name, ⟨.AAAA, a.str⟩, cfg.dns_ttl⟩], []⟩) ∧
    (q.qtype = dnsA6 →
      (DynamicResolver.query cfg env q).1 =
        .ok ⟨[], [⟨q.name, ⟨.A6, a.str⟩, cfg.dns_ttl⟩], []⟩) := by
  have hmem : domainSuffix q.name ∈ cfg.dns_domains := by simpa using hscope
  constructor <;> intro hq <;>
    simp [DynamicResolver.query, doDynamicResponse, onResult, doCreateRecord,
      hmem, hstore, hip, hv6, hq, dnsA, dnsAAAA, dnsA6]

/-- Witness for C7: stored value `2001:db8::1` answered with an AAAA
record for an AAAA query and an A6 record for an A6 query. -/
theorem c7_ipv6_record_mirrors_qtype_witness :
    (DynamicResolver.query
        ⟨300, ["example.org"], "SELECT address FROM dns WHERE domain = %s"⟩
        ⟨fun _ _ => .ok [["2001:db8::1"]], fun _ _ => .error (.External 0)⟩
        ⟨"host6.example.org", 28, 1⟩).1 =
      .ok ⟨[], [⟨"host6.example.org", ⟨.AAAA, "2001:db8::1"⟩, 300⟩], []⟩ ∧
    (DynamicResolver.query
        ⟨300, ["example.org"], "SELECT address FROM dns WHERE domain = %s"⟩
        ⟨fun _ _ => .ok [["2001:db8::1"]], fun _ _ => .error (.External 0)⟩
        ⟨"host6.example.org", 38, 1⟩).1 =
      .ok ⟨[], [⟨"host6.example.org", ⟨.A6, "2001:db8::1"⟩, 300⟩], []⟩ := by
  refine ⟨(c7_ipv6_record_mirrors_qtype
      ⟨300, ["example.org"], "SELECT address FROM dns WHERE domain = %s"⟩
      ⟨fun _ _ => .ok [["2001:db8::1"]], fun _ _ => .error (.External 0)⟩
      ⟨"host6.example.org", 28, 1⟩ "2001:db8::1" [] []
      (.v6 [8193, 3512, 0, 0, 0, 0, 0, 1])
      (by decide) rfl (by decide) rfl).1 rfl, ?_⟩
  exact (c7_ipv6_record_mirrors_qtype
      ⟨300, ["example.org"], "SELECT address FROM dns WHERE domain = %s"⟩
      ⟨fun _ _ => .ok [["2001:db8::1"]], fun _ _ => .error (.External 0)⟩
      ⟨"host6.example.org", 38, 1⟩ "2001:db8::1" [] []
      (.v6 [8193, 3512, 0, 0, 0, 0, 0, 1])
      (by decide) rfl (by decide) rfl).2 rfl

/-- C8: for every in-scope query whose store lookup itself fails,
resolution fails with the underlying cause propagated unchanged (the
spec's `StoreFailure(cause)`); the trace shows exactly one store
invocation (no retry) followed only by the failure log — in particular the
failure is not converted into the no-such-domain error or any other
domain error. -/
theorem c8_store_failure_propagated (cfg : Config) (env : Env) (q : Query)
    (e : PyError)
    (htype : q.qtype = dnsA ∨ q.qtype = dnsAAAA ∨ q.qtype = dnsA6)
    (hscope : cfg.dns_domains.contains (domainSuffix q.name) = true)
    (hstore : env.store cfg.db_query [q.name] = .error e) :
    (DynamicResolver.query cfg env q).1 = .err e ∧
      (DynamicResolver.query cfg env q).2 =
        [.storeQuery cfg.db_query [q.name], .logStoreFailed] := by
  have hmem : domainSuffix q.name ∈ cfg.dns_domains := by simpa using hscope
  simp [DynamicResolver.query, doDynamicResponse, htype, hmem, hstore]

/-- Witness for C8: a store driver failure (code 7) surfaces as that very
failure, after exactly one store call, and is not turned into
`error.DomainError()`. -/
theorem c8_store_failure_propagated_witness :
    (DynamicResolver.query
        ⟨300, ["example.org"], "SELECT address FROM dns WHERE domain = %s"⟩
        ⟨fun _ _ => .error (.External 7), fun _ _ => .error (.External 0)⟩
        ⟨"host1.example.org", 1, 1⟩).1 = .err (.External 7) ∧
      (DynamicResolver.query
        ⟨300, ["example.org"], "SELECT address FROM dns WHERE domain = %s"⟩
        ⟨fun _ _ => .error (.External 7), fun _ _ => .error (.External 0)⟩
        ⟨"host1.example.org", 1, 1⟩).2 =
        [.storeQuery "SELECT address FROM dns WHERE domain = %s"
            ["host1.example.org"], .logStoreFailed] := by
  exact c8_store_failure_propagated
    ⟨300, ["example.org"], "SELECT address FROM dns WHERE domain = %s"⟩
    ⟨fun _ _ => .error (.External 7), fun _ _ => .error (.External 0)⟩
    ⟨"host1.example.org", 1, 1⟩ (.External 7) (Or.inl rfl) (by decide) rfl

/-- C9 as stated is false: membership of the full query name in the
allow-list does not make the resolver reject the query when the stripped
suffix happens to be allow-listed too.  With allow-list
{"example.org", "org"} and query name "example.org" (itself a member of
the allow-list), the suffix "org" is also a member, so resolution
proceeds to the store and succeeds instead of failing out of scope. -/
theorem c9_counterexample :
    ("example.org" ∈ (["example.org", "org"] : List String)) ∧
      (DynamicResolver.query
        ⟨300, ["example.org", "org"], "SELECT address FROM dns WHERE domain = %s"⟩
        ⟨fun _ _ => .ok [["203.0.113.5"]], fun _ _ => .error (.External 0)⟩
        ⟨"example.org", 1, 1⟩).2.any Event.isStore = true ∧
      (DynamicResolver.query
        ⟨300, ["example.org", "org"], "SELECT address FROM dns WHERE domain = %s"⟩
        ⟨fun _ _ => .ok [["203.0.113.5"]], fun _ _ => .error (.External 0)⟩
        ⟨"example.org", 1, 1⟩).1 =
        .ok ⟨[], [⟨"example.org", ⟨.A, "203.0.113.5"⟩, 300⟩], []⟩ := by
  refine ⟨by decide, by decide, ?_⟩
  decide

/-- C9 (amended): for every query whose name as a whole is in the
allow-list while its suffix after stripping the first label is not, the
query is rejected (dispatcher `error.DomainError()`) and the store is
never invoked — only the stripped suffix, never the full name, is
compared against the allow-list. -/
theorem c9_full_name_not_consulted (cfg : Config) (env : Env) (q : Query)
    (_hmem : cfg.dns_domains.contains q.name = true)
    (hsuf : cfg.dns_domains.contains (domainSuffix q.name) = false) :
    (DynamicResolver.query cfg env q).1 = .err .DomainError ∧
      (DynamicResolver.query cfg env q).2.any Event.isStore = false := by
  have hns : domainSuffix q.name ∉ cfg.dns_domains := by simpa using hsuf
  simp [DynamicResolver.query, Event.isStore, hns]

/-- Witness for C9 (amended): name "example.org" with allow-list
{"example.org"} — the full name is a member, the suffix "org" is not, and
the query is rejected without a store call. -/
theorem c9_full_name_not_consulted_witness :
    (DynamicResolver.query
        ⟨300, ["example.org"], "SELECT address FROM dns WHERE domain = %s"⟩
        ⟨fun _ _ => .ok [["203.0.113.5"]], fun _ _ => .error (.External 0)⟩
        ⟨"example.org", 1, 1⟩).1 = .err .DomainError ∧
      (DynamicResolver.query
        ⟨300, ["example.org"], "SELECT address FROM dns WHERE domain = %s"⟩
        ⟨fun _ _ => .ok [["203.0.113.5"]], fun _ _ => .error (.External 0)⟩
        ⟨"example.org", 1, 1⟩).2.any Event.isStore = false := by
  exact c9_full_name_not_consulted
    ⟨300, ["example.org"], "SELECT address FROM dns WHERE domain = %s"⟩
    ⟨fun _ _ => .ok [["203.0.113.5"]], fun _ _ => .error (.External 0)⟩
    ⟨"example.org", 1, 1⟩ (by decide) (by decide)

/-- C10: the `answers`/`additional` lists bound as default arguments of
the store-result callback are never mutated: `onResult` returns whatever
lists it was given, unchanged, around the single fresh authority record;
since each resolution calls it with fresh empty lists, any two successful
literal resolutions have empty, independent answers/additional lists, and
a record of one resolution appears in the other's outcome only if the two
records coincide. -/
theorem c10_default_lists_never_mutated
    (cfg₁ cfg₂ : Config) (env₁ env₂ : Env) (q₁ q₂ : Query) (v₁ v₂ : String)
    (row₁ row₂ : List String) (rows₁ rows₂ : List (List String))
    (r₁ r₂ : RRHeader)
    (htype₁ : q₁.qtype = dnsA ∨ q₁.qtype = dnsAAAA ∨ q₁.qtype = dnsA6)
    (hscope₁ : cfg₁.dns_domains.contains (domainSuffix q₁.name) = true)
    (hstore₁ : env₁.store cfg₁.db_query [q₁.name] = .ok ((v₁ :: row₁) :: rows₁))
    (hrec₁ : doCreateRecord cfg₁ q₁ q₁.name v₁ = .ok r₁)
    (htype₂ : q₂.qtype = dnsA ∨ q₂.qtype = dnsAAAA ∨ q₂.qtype = dnsA6)
    (hscope₂ : cfg₂.dns_domains.contains (domainSuffix q₂.name) = true)
    (hstore₂ : env₂.store cfg₂.db_query [q₂.name] = .ok ((v₂ :: row₂) :: rows₂))
    (hrec₂ : doCreateRecord cfg₂ q₂ q₂.name v₂ = .ok r₂) :
    (∀ answers additional,
      (onResult cfg₁ env₁ q₁ q₁.name answers additional
          ((v₁ :: row₁) :: rows₁)).1 = .ok ⟨answers, [r₁], additional⟩) ∧
      (DynamicResolver.query cfg₁ env₁ q₁).1 = .ok ⟨[], [r₁], []⟩ ∧
      (∀ answers additional,
        (onResult cfg₂ env₂ q₂ q₂.name answers additional
            ((v₂ :: row₂) :: rows₂)).1 = .ok ⟨answers, [r₂], additional⟩) ∧
      (DynamicResolver.query cfg₂ env₂ q₂).1 = .ok ⟨[], [r₂], []⟩ ∧
      (r₁ ≠ r₂ → ∀ r, r ∈ [r₁] → r ∉ ([r₂] : List RRHeader)) := by
  have hmem₁ : domainSuffix q₁.name ∈ cfg₁.dns_domains := by simpa using hscope₁
  have hmem₂ : domainSuffix q₂.name ∈ cfg₂.dns_domains := by simpa using hscope₂
  refine ⟨?_, ?_, ?_, ?_, ?_⟩
  · intro answers additional
    simp [onResult, hrec₁]
  · simp [DynamicResolver.query, doDynamicResponse, onResult,
      htype₁, hmem₁, hstore₁, hrec₁]
  · intro answers additional
    simp [onResult, hrec₂]
  · simp [DynamicResolver.query, doDynamicResponse, onResult,
      htype₂, hmem₂, hstore₂, hrec₂]
  · intro hne r h1 h2
    exact hne (by simpa using (List.mem_singleton.mp h1) ▸ List.mem_singleton.mp h2)

/-- Witness for C10: two literal resolutions (an A record for
`host1.example.org` and an AAAA record for `host6.example.org`) each yield
empty answers/additional around their own single authority record, the
callback passes arbitrary given lists through unchanged (instantiated and
checked at `[]`/`[]`), and neither record appears in the other's
outcome. -/
theorem c10_default_lists_never_mutated_witness :
    ((onResult ⟨300, ["example.org"], "SELECT address FROM dns WHERE domain = %s"⟩
        ⟨fun _ _ => .ok [["203.0.113.5"]], fun _ _ => .error (.External 0)⟩
        ⟨"host1.example.org", 1, 1⟩ "host1.example.org" [] []
        [["203.0.113.5"]]).1 =
      .ok ⟨[], [⟨"host1.example.org", ⟨.A, "203.0.113.5"⟩, 300⟩], []⟩) ∧
    (DynamicResolver.query
        ⟨300, ["example.org"], "SELECT address FROM dns WHERE domain = %s"⟩
        ⟨fun _ _ => .ok [["203.0.113.5"]], fun _ _ => .error (.External 0)⟩
        ⟨"host1.example.org", 1, 1⟩).1 =
      .ok ⟨[], [⟨"host1.example.org", ⟨.A, "203.0.113.5"⟩, 300⟩], []⟩ ∧
    (DynamicResolver.query
        ⟨300, ["example.org"], "SELECT address FROM dns WHERE domain = %s"⟩
        ⟨fun _ _ => .ok [["2001:db8::1"]], fun _ _ => .error (.External 0)⟩
        ⟨"host6.example.org", 28, 1⟩).1 =
      .ok ⟨[], [⟨"host6.example.org", ⟨.AAAA, "2001:db8::1"⟩, 300⟩], []⟩ ∧
    (∀ r, r ∈ [(⟨"host1.example.org", ⟨.A, "203.0.113.5"⟩, 300⟩ : RRHeader)] →
      r ∉ ([⟨"host6.example.org", ⟨.AAAA, "2001:db8::1"⟩, 300⟩] : List RRHeader)) := by
  have h := c10_default_lists_never_mutated
    ⟨300, ["example.org"], "SELECT address FROM dns WHERE domain = %s"⟩
    ⟨300, ["example.org"], "SELECT address FROM dns WHERE domain = %s"⟩
    ⟨fun _ _ => .ok [["203.0.113.5"]], fun _ _ => .error (.External 0)⟩
    ⟨fun _ _ => .ok [["2001:db8::1"]], fun _ _ => .error (.External 0)⟩
    ⟨"host1.example.org", 1, 1⟩ ⟨"host6.example.org", 28, 1⟩
    "203.0.113.5" "2001:db8::1" [] [] [] []
    ⟨"host1.example.org", ⟨.A, "203.0.113.5"⟩, 300⟩
    ⟨"host6.example.org", ⟨.AAAA, "2001:db8::1"⟩, 300⟩
    (Or.inl rfl) (by decide) rfl rfl
    (Or.inr (Or.inl rfl)) (by decide) rfl rfl
  exact ⟨h.1 [] [], h.2.1, h.2.2.2.1, h.2.2.2.2 (by decide)⟩

end PyDNS
